import Mathlib

/-!
Verification development for the TEC campaign-finance import scripts
(`scripts/import_filers.py`, `scripts/import_reports.py`,
`scripts/import_contributions.py`, `scripts/import_expenditures.py`,
`scripts/create_texas_geo_lookup.py`).

The Python sources are shallowly embedded below.  Raw CSV rows are
association lists from column name to raw string (`Row`), mirroring
`csv.DictReader` rows; Python's `int()` / `float()` builtins are
modelled for ASCII strings (floats as exact rationals); all exception
paths of the scripts are modelled with `Option`/`Except` values.
-/

/-! ## ASCII character helpers (Python string semantics, ASCII fragment) -/

/-- Whitespace characters stripped by Python `str.strip()` / `int()` /
`float()` (ASCII fragment). -/
def pyIsSpace (c : Char) : Bool :=
  c == ' ' || c == '\t' || c == '\n' || c == '\r' || c == '\x0b' || c == '\x0c'

/-- ASCII decimal digit test (Python `str.isdigit` / number parsing, ASCII fragment). -/
def isDigitChar (c : Char) : Bool :=
  48 ≤ c.toNat && c.toNat ≤ 57

/-- Numeric value of an ASCII digit character. -/
def digitVal (c : Char) : Nat := c.toNat - 48

/-- ASCII uppercasing, as Python `str.upper()` on ASCII text. -/
def upperChar (c : Char) : Char :=
  if 97 ≤ c.toNat ∧ c.toNat ≤ 122 then Char.ofNat (c.toNat - 32) else c

/-- Drop leading whitespace. -/
def dropLeadingWS (cs : List Char) : List Char := cs.dropWhile pyIsSpace

/-- Drop trailing whitespace. -/
def dropTrailingWS (cs : List Char) : List Char :=
  (cs.reverse.dropWhile pyIsSpace).reverse

/-- Python `str.strip()` on a character list. -/
def stripWS (cs : List Char) : List Char := dropTrailingWS (dropLeadingWS cs)

/-- Python `str.strip()` on a string. -/
def pyStrip (s : String) : String := ⟨stripWS s.data⟩

/-- Take the first `n` characters of a string (Python slice `s[:n]`). -/
def strTake (n : Nat) (s : String) : String := ⟨s.data.take n⟩

/-- Drop the first `n` characters of a string (Python slice `s[n:]`). -/
def strDrop (n : Nat) (s : String) : String := ⟨s.data.drop n⟩

/-! ## Python `int()` model

`int(raw)` on a string argument: strip whitespace, optional single sign,
then a non-empty run of ASCII digits in which `_` may appear only
between two digits.  Any other shape raises `ValueError` (modelled as
`none`). -/

/-- Digit-run scanner: `flag` records that the previous character was an
underscore (so the next character must be a digit). -/
def pyDigitsAux : List Char → Bool → Nat → Option Nat
  | [], flag, acc => if flag then none else some acc
  | c :: rest, flag, acc =>
    if isDigitChar c then pyDigitsAux rest false (acc * 10 + digitVal c)
    else if c == '_' then
      if flag then none else pyDigitsAux rest true acc
    else none

/-- Digit body of a Python integer literal: a digit followed by digits
with single interior underscores. -/
def pyDigitBody : List Char → Option Nat
  | [] => none
  | c :: rest => if isDigitChar c then pyDigitsAux rest false (digitVal c) else none

/-- Signed integer body after whitespace stripping.  (`pyDigitBody []`
is `none`, so the empty case is a `ValueError` as in Python.) -/
def pyIntSigned : List Char → Option Int
  | [] => none
  | c :: rest =>
    if c = '+' then (pyDigitBody rest).map Int.ofNat
    else if c = '-' then (pyDigitBody rest).map fun n : Nat => -(n : Int)
    else (pyDigitBody (c :: rest)).map Int.ofNat

/-- Python `int(s)` on a string: `some` value, or `none` for `ValueError`. -/
def pyInt? (s : String) : Option Int := pyIntSigned (stripWS s.data)

/-! ## Python `float()` model (values as exact rationals)

Modelled from the Python `float()` builtin boundary for the decimal
forms appearing in the data: optional sign, digits with an optional
single decimal point.  Exponent, `inf`/`nan` and underscore forms are
omitted (unused by any claim); unparsable input is `none` (`ValueError`).
Values are exact rationals (the spec's amounts are decimal strings). -/

/-- Fold a digit list to its decimal value. -/
def digitsToNat (ds : List Char) : Nat := ds.foldl (fun a c => a * 10 + digitVal c) 0

/-- Unsigned decimal body `digits [. digits]` with at least one digit. -/
def pyFloatBody (cs : List Char) : Option Rat :=
  let ip := cs.takeWhile isDigitChar
  let r1 := cs.dropWhile isDigitChar
  match r1 with
  | [] => if ip = [] then none else some (digitsToNat ip : Rat)
  | '.' :: r2 =>
    let fp := r2.takeWhile isDigitChar
    let r3 := r2.dropWhile isDigitChar
    if r3 = [] then
      if ip = [] ∧ fp = [] then none
      else some ((digitsToNat ip : Rat) + (digitsToNat fp : Rat) / ((10 : Rat) ^ fp.length))
    else none
  | _ => none

/-- Python `float(s)`: strip whitespace, optional sign, decimal body. -/
def pyFloat? (cs : List Char) : Option Rat :=
  match stripWS cs with
  | '+' :: r => pyFloatBody r
  | '-' :: r => (pyFloatBody r).map Neg.neg
  | cs' => pyFloatBody cs'

/-! ## Date parsing (`parse_date` in the three importer scripts)

The three importer scripts define the identical `parse_date`
(`import_contributions.py` lines 33-50, `import_expenditures.py` lines
33-48, `import_reports.py` lines 32-47).  The `datetime.strptime`
library boundary is modelled for the three format strings the scripts
pass it; `ValueError` raised by `strptime` is modelled as an
`Except.error "ValueError"`, and the script's `try`/`except` handlers
are explicit matches. -/

/-- Leap-year rule of the proleptic Gregorian calendar. -/
def isLeapYear (y : Nat) : Bool := (y % 4 == 0 && y % 100 != 0) || y % 400 == 0

/-- Days in a month. -/
def daysInMonth (y m : Nat) : Nat :=
  if m = 2 then (if isLeapYear y then 29 else 28)
  else if m = 4 ∨ m = 6 ∨ m = 9 ∨ m = 11 then 30
  else 31

/-- Calendar validity check performed by `datetime.strptime`. -/
def validYMD (y m d : Nat) : Bool :=
  1 ≤ y && y ≤ 9999 && 1 ≤ m && m ≤ 12 && 1 ≤ d && d ≤ daysInMonth y m

/-- Parse exactly `n` ASCII digits, returning the value and the rest. -/
def parseNDigits (n : Nat) (cs : List Char) : Option (Nat × List Char) :=
  let ds := cs.take n
  if ds.length = n ∧ ds.all isDigitChar then some (digitsToNat ds, cs.drop n) else none

/-- Parse one or two ASCII digits greedily (as `strptime` `%m` / `%d`). -/
def parseUpTo2 (cs : List Char) : Option (Nat × List Char) :=
  let ds := (cs.take 2).takeWhile isDigitChar
  if ds = [] then none else some (digitsToNat ds, cs.drop ds.length)

/-- Require a literal character. -/
def expectChar (c : Char) : List Char → Option (List Char)
  | d :: rest => if d = c then some rest else none
  | [] => none

/-- Modelled from the Python `datetime.strptime` library boundary, for
the three format strings used by `parse_date`; full-string match with
calendar validation, `none` for `ValueError`. -/
def strptime? (fmt : String) (s : String) : Option (Nat × Nat × Nat) :=
  let cs := s.data
  if fmt = "%Y%m%d" then do
    let (y, r1) ← parseNDigits 4 cs
    let (m, r2) ← parseNDigits 2 r1
    let (d, r3) ← parseNDigits 2 r2
    if r3 = [] ∧ validYMD y m d then pure (y, m, d) else none
  else if fmt = "%m/%d/%Y" then do
    let (m, r1) ← parseUpTo2 cs
    let r2 ← expectChar '/' r1
    let (d, r3) ← parseUpTo2 r2
    let r4 ← expectChar '/' r3
    let (y, r5) ← parseNDigits 4 r4
    if r5 = [] ∧ validYMD y m d then pure (y, m, d) else none
  else if fmt = "%Y-%m-%d" then do
    let (y, r1) ← parseNDigits 4 cs
    let r2 ← expectChar '-' r1
    let (m, r3) ← parseUpTo2 r2
    let r4 ← expectChar '-' r3
    let (d, r5) ← parseUpTo2 r4
    if r5 = [] ∧ validYMD y m d then pure (y, m, d) else none
  else none

/-- `strptime` with the raised `ValueError` made explicit. -/
def strptimeE (fmt s : String) : Except String (Nat × Nat × Nat) :=
  match strptime? fmt s with
  | some ymd => .ok ymd
  | none => .error "ValueError"

/-- Zero-padded two-digit rendering (as `strftime` `%m` / `%d`). -/
def pad2 (n : Nat) : String := if n < 10 then "0" ++ toString n else toString n

/-- Zero-padded four-digit rendering (as `strftime` `%Y`). -/
def pad4 (n : Nat) : String :=
  if n < 10 then "000" ++ toString n
  else if n < 100 then "00" ++ toString n
  else if n < 1000 then "0" ++ toString n
  else toString n

/-- `dt.strftime('%Y-%m-%d')` for a parsed date. -/
def strftimeYMD (y m d : Nat) : String := pad4 y ++ "-" ++ pad2 m ++ "-" ++ pad2 d

/-- The format list tried by `parse_date`'s fallback loop. -/
def dateFormats : List String := ["%Y%m%d", "%m/%d/%Y", "%Y-%m-%d"]

/-- The `for fmt in [...]` loop of `parse_date`: each `strptime` call is
wrapped in `try`/`except ValueError: continue`; any other exception
propagates to the outer handler. -/
def tryFmtsE : List String → String → Except String (Option String)
  | [], _ => .ok none
  | fmt :: rest, s =>
    match strptimeE fmt s with
    | .ok (y, m, d) => .ok (some (strftimeYMD y m d))
    | .error e => if e = "ValueError" then tryFmtsE rest s else .error e

/-- The outer `try`/`except Exception: return None` handler of
`parse_date`: any raised exception collapses to an absent result. -/
def pyCatchAll (e : Except String (Option String)) : Except String (Option String) :=
  match e with
  | .ok r => .ok r
  | .error _ => .ok none

/-- Body of `parse_date` with its control flow and handlers explicit. -/
def parse_dateE (s : String) : Except String (Option String) :=
  if s = "" then .ok none
  else if s.length < 8 then .ok none
  else
    pyCatchAll
      (if s.length = 8 ∧ s.data.all isDigitChar then
        Except.ok (some (strTake 4 s ++ "-" ++ strTake 2 (strDrop 4 s) ++ "-" ++ strTake 2 (strDrop 6 s)))
      else tryFmtsE dateFormats (strTake 10 s))

/-- `parse_date`: TEC `YYYYMMDD` (and fallback formats) to ISO date. -/
def parse_date (s : String) : Option String :=
  match parse_dateE s with
  | .ok r => r
  | .error _ => none

/-! ## Amount parsing (`parse_amount`)

`import_contributions.py` lines 53-62 and `import_expenditures.py`
lines 51-59 default to `0.0`; `import_reports.py` lines 50-58 defaults
to `None`. -/

/-- Keep characters other than `,` and `$` (the two `str.replace` calls). -/
def moneyFilter (cs : List Char) : List Char :=
  cs.filter fun c => !(c == ',' || c == '$')

/-- The string with all `,` and `$` characters removed. -/
def removeMoneyChars (s : String) : String := ⟨moneyFilter s.data⟩

/-- The `clean` intermediate of `parse_amount`:
`amount_str.replace(',', '').replace('$', '').strip()`. -/
def cleanAmount (s : String) : List Char := stripWS (moneyFilter s.data)

/-- `parse_amount` of the contributions/expenditures scripts: empty or
unparsable input yields `0.0`. -/
def parse_amount (amount_str : String) : Rat :=
  if amount_str.data = [] then 0
  else
    match cleanAmount amount_str with
    | [] => 0
    | _ :: _ => ((pyFloat? (cleanAmount amount_str)).getD 0)

/-- `parse_amount` of the reports script: empty or unparsable input
yields `None` (absent). -/
def parse_amount_opt (amount_str : String) : Option Rat :=
  if amount_str.data = [] then none
  else
    match cleanAmount amount_str with
    | [] => none
    | _ :: _ => pyFloat? (cleanAmount amount_str)

/-! ## Rows and the temporal filter -/

/-- A raw CSV row: association list from column name to raw string,
as yielded by `csv.DictReader`. -/
def Row : Type := List (String × String)

/-- `row.get(key, '')` on a `DictReader` row. -/
def rowGet (row : Row) (k : String) : String :=
  match row.find? (fun p => p.1 == k) with
  | some p => p.2
  | none => ""

/-- The 2020-01-01 cutoff constant `MIN_DATE` shared by the reports,
contributions and expenditures importers. -/
def MIN_DATE : Int := 20200101

/-- The received-date filter block shared verbatim by
`parse_contribution_row` (lines 93-100), `parse_expenditure_row`
(lines 87-94) and `parse_report_row` (lines 63-70):
`int(raw[:8]) if len(raw) >= 8 else 0`, compared against `MIN_DATE`,
with `ValueError` passing the row through. -/
def passes_temporal (raw : String) : Bool :=
  if raw = "" then true
  else
    match (if 8 ≤ raw.length then pyInt? (strTake 8 raw) else some 0) with
    | some n => if n < MIN_DATE then false else true
    | none => true

/-! ## Name assembly and the per-entity row normalizers -/

/-- `build_contributor_name` (`import_contributions.py` lines 65-87):
organization name wins; else `"last, first"` with optional suffix; else
whichever of last/first is present; else the literal `"Unknown"`. -/
def build_contributor_name (row : Row) : String :=
  let org := pyStrip (rowGet row "contributorNameOrganization")
  if org ≠ "" then org
  else
    let last := pyStrip (rowGet row "contributorNameLast")
    let first := pyStrip (rowGet row "contributorNameFirst")
    let sfx := pyStrip (rowGet row "contributorNameSuffixCd")
    if last ≠ "" ∧ first ≠ "" then
      (if sfx ≠ "" then last ++ ", " ++ first ++ " " ++ sfx else last ++ ", " ++ first)
    else if last ≠ "" then last
    else if first ≠ "" then first
    else "Unknown"

/-- `build_payee_name` (`import_expenditures.py` lines 62-82), same
shape as `build_contributor_name` over the payee columns. -/
def build_payee_name (row : Row) : String :=
  let org := pyStrip (rowGet row "payeeNameOrganization")
  if org ≠ "" then org
  else
    let last := pyStrip (rowGet row "payeeNameLast")
    let first := pyStrip (rowGet row "payeeNameFirst")
    let sfx := pyStrip (rowGet row "payeeNameSuffixCd")
    if last ≠ "" ∧ first ≠ "" then
      (if sfx ≠ "" then last ++ ", " ++ first ++ " " ++ sfx else last ++ ", " ++ first)
    else if last ≠ "" then last
    else if first ≠ "" then first
    else "Unknown"

/-- Python `a or b` on strings: `a` if non-empty, else `b`. -/
def pyOr (a b : String) : String := if a ≠ "" then a else b

/-- Canonical contribution record (`import_contributions.py` lines 106-121). -/
structure Contribution where
  id : String
  filer_id : String
  filer_name : String
  contributor_name : String
  contributor_type : String
  contributor_city : String
  contributor_state : String
  contributor_employer : String
  contributor_occupation : String
  amount : Rat
  date : Option String
  description : String
  report_id : String
  received_date : Option String
deriving DecidableEq

/-- `parse_contribution_row` (`import_contributions.py` lines 90-121):
temporal filter first, then identity check, then field derivation. -/
def parse_contribution_row (row : Row) : Option Contribution :=
  let received_date_raw := rowGet row "receivedDt"
  if passes_temporal received_date_raw then
    let contribution_id := rowGet row "contributionInfoId"
    if contribution_id = "" then none
    else some
      { id := contribution_id
        filer_id := rowGet row "filerIdent"
        filer_name := rowGet row "filerName"
        contributor_name := build_contributor_name row
        contributor_type := rowGet row "contributorPersentTypeCd"
        contributor_city := rowGet row "contributorStreetCity"
        contributor_state := rowGet row "contributorStreetStateCd"
        contributor_employer := rowGet row "contributorEmployer"
        contributor_occupation := rowGet row "contributorOccupation"
        amount := parse_amount (rowGet row "contributionAmount")
        date := parse_date (rowGet row "contributionDt")
        description := rowGet row "contributionDescr"
        report_id := rowGet row "reportInfoIdent"
        received_date := parse_date received_date_raw }
  else none

/-- Canonical expenditure record (`import_expenditures.py` lines 100-113). -/
structure Expenditure where
  id : String
  filer_id : String
  filer_name : String
  payee_name : String
  payee_city : String
  payee_state : String
  amount : Rat
  date : Option String
  category : String
  description : String
  report_id : String
  received_date : Option String
deriving DecidableEq

/-- `parse_expenditure_row` (`import_expenditures.py` lines 85-113). -/
def parse_expenditure_row (row : Row) : Option Expenditure :=
  let received_date_raw := rowGet row "receivedDt"
  if passes_temporal received_date_raw then
    let expend_id := rowGet row "expendInfoId"
    if expend_id = "" then none
    else some
      { id := expend_id
        filer_id := rowGet row "filerIdent"
        filer_name := rowGet row "filerName"
        payee_name := build_payee_name row
        payee_city := rowGet row "payeeStreetCity"
        payee_state := rowGet row "payeeStreetStateCd"
        amount := parse_amount (rowGet row "expendAmount")
        date := parse_date (rowGet row "expendDt")
        category := pyOr (rowGet row "expendCatCd") (rowGet row "expendCatDescr")
        description := rowGet row "expendDescr"
        report_id := rowGet row "reportInfoIdent"
        received_date := parse_date received_date_raw }
  else none

/-- Canonical report (cover sheet) record (`import_reports.py` lines 84-96). -/
structure Report where
  id : String
  filer_id : String
  filer_name : String
  report_type : Option String
  period_start : Option String
  period_end : Option String
  filed_date : Option String
  received_date : Option String
  total_contributions : Option Rat
  total_expenditures : Option Rat
  cash_on_hand : Option Rat
deriving DecidableEq

/-- Non-emptiness test used when collecting report-type codes. -/
def strNonEmpty (v : String) : Bool := if v = "" then false else true

/-- `', '.join` of a list of strings. -/
def joinSep (sep : String) : List String → String
  | [] => ""
  | [v] => v
  | v :: rest => v ++ sep ++ joinSep sep rest

/-- The report-type aggregation loop of `parse_report_row`
(`import_reports.py` lines 77-82): scan `reportTypeCd1` .. `reportTypeCd10`
in order, keep stripped non-empty values, join with `", "`, `None` when
none are populated. -/
def reportTypeJoin (row : Row) : Option String :=
  let report_types := (List.range 10).foldl
    (fun acc i =>
      let rt := pyStrip (rowGet row ("reportTypeCd" ++ toString (i + 1)))
      if strNonEmpty rt then acc ++ [rt] else acc) []
  if report_types = [] then none else some (joinSep ", " report_types)

/-- `parse_report_row` (`import_reports.py` lines 61-96). -/
def parse_report_row (row : Row) : Option Report :=
  let received_date_raw := rowGet row "receivedDt"
  if passes_temporal received_date_raw then
    let report_id := rowGet row "reportInfoIdent"
    if report_id = "" then none
    else some
      { id := report_id
        filer_id := rowGet row "filerIdent"
        filer_name := rowGet row "filerName"
        report_type := reportTypeJoin row
        period_start := parse_date (rowGet row "periodStartDt")
        period_end := parse_date (rowGet row "periodEndDt")
        filed_date := parse_date (rowGet row "filedDt")
        received_date := parse_date received_date_raw
        total_contributions := parse_amount_opt (rowGet row "totalContribAmount")
        total_expenditures := parse_amount_opt (rowGet row "totalExpendAmount")
        cash_on_hand := parse_amount_opt (rowGet row "contribsMaintainedAmount") }
  else none

/-- Characters stripped by `.strip(', ')` in `parse_filer_row`. -/
def isCommaOrSpace (c : Char) : Bool := c == ',' || c == ' '

/-- Python `s.strip(', ')`: drop leading/trailing commas and spaces. -/
def stripCommaSpace (s : String) : String :=
  ⟨((s.data.dropWhile isCommaOrSpace).reverse.dropWhile isCommaOrSpace).reverse⟩

/-- Canonical filer record (`import_filers.py` lines 43-54). -/
structure Filer where
  id : String
  name : String
  type : String
  party : Option String
  office_held : String
  office_district : String
  office_county : String
  status : String
  city : String
  state : String
deriving DecidableEq

/-- `parse_filer_row` (`import_filers.py` lines 30-54): name from
`filerName`, else assembled from parts with `.strip(', ')`; `party`
always absent at import time. -/
def parse_filer_row (row : Row) : Filer :=
  let name0 := rowGet row "filerName"
  let name :=
    if name0 = "" then
      let first := rowGet row "filerNameFirst"
      let last := rowGet row "filerNameLast"
      let sfx := rowGet row "filerNameSuffixCd"
      if first ≠ "" ∨ last ≠ "" then
        let base := stripCommaSpace (last ++ ", " ++ first)
        if sfx ≠ "" then base ++ " " ++ sfx else base
      else name0
    else name0
  { id := rowGet row "filerIdent"
    name := name
    type := rowGet row "filerTypeCd"
    party := none
    office_held := pyOr (rowGet row "filerHoldOfficeCd") (rowGet row "ctaSeekOfficeCd")
    office_district := pyOr (rowGet row "filerHoldOfficeDistrict") (rowGet row "ctaSeekOfficeDistrict")
    office_county := pyOr (rowGet row "filerHoldOfficeCountyDescr") (rowGet row "ctaSeekOfficeCountyDescr")
    status := pyOr (rowGet row "filerFilerpersStatusCd") (rowGet row "committeeStatusCd")
    city := rowGet row "filerStreetCity"
    state := rowGet row "filerStreetStateCd" }

/-! ## Import loops (record collection and deduplication) -/

/-- The row-collection loop shared by the reports, contributions and
expenditures importers (`import_reports.py` lines 113-120,
`import_contributions.py` lines 141-148, `import_expenditures.py`
lines 132-139): accepted records in order, plus the skipped count. -/
def collectRows (p : Row → Option ρ) : List Row → List ρ × Nat
  | [] => ([], 0)
  | row :: rest =>
    let acc := collectRows p rest
    match p row with
    | some r => (r :: acc.1, acc.2)
    | none => (acc.1, acc.2 + 1)

/-- The filer reading loop of `import_filers` (`import_filers.py`
lines 68-85), carrying the `seen_ids` set: skip empty or already-seen
identities, record the identity as seen, then drop rows whose derived
name is empty. -/
def filersLoop : List Row → List String → List Filer
  | [], _ => []
  | row :: rest, seen =>
    let filer_id := rowGet row "filerIdent"
    if filer_id = "" then filersLoop rest seen
    else if seen.contains filer_id then filersLoop rest seen
    else
      let f := parse_filer_row row
      if f.name = "" then filersLoop rest (filer_id :: seen)
      else f :: filersLoop rest (filer_id :: seen)

/-- The records `import_filers` accumulates from a source file. -/
def import_filers_records (rows : List Row) : List Filer := filersLoop rows []

/-- First-occurrence selection, stated independently of the loop: keep
each row whose (non-empty) filer identity has not occurred earlier. -/
def dedupFirstAux : List Row → List String → List Row
  | [], _ => []
  | row :: rest, seen =>
    let filer_id := rowGet row "filerIdent"
    if filer_id = "" then dedupFirstAux rest seen
    else if seen.contains filer_id then dedupFirstAux rest seen
    else row :: dedupFirstAux rest (filer_id :: seen)

/-- First occurrence of each non-empty filer identity. -/
def dedupFirst (rows : List Row) : List Row := dedupFirstAux rows []

/-- Derive a filer record, dropping it when the derived name is empty. -/
def keep_named_filer (row : Row) : Option Filer :=
  let f := parse_filer_row row
  if f.name = "" then none else some f

/-! ## Batch persistence with two-tier retry

`import_contributions.py` lines 154-169 and `import_expenditures.py`
lines 144-158: full-size batches via Python slicing
`records[i:i+BATCH_SIZE]`; on an upsert failure the batch is re-sliced
into fallback-size mini-batches, each retried independently.  The
store is modelled as a predicate on batches (`true` = the upsert call
succeeds, `false` = it raises); every call made is recorded in order
with its outcome. -/

/-- Python slicing `l[i:i+size]` for `i in range(0, len(l), size)`:
successive chunks, the last possibly shorter.  (For `size = 0` Python's
`range` would raise; the scripts use the constants 1000 and 100.) -/
def chunksAux : Nat → Nat → List α → List (List α)
  | _, _, [] => []
  | 0, _, _ => []
  | fuel + 1, size, l => l.take size :: chunksAux fuel size (l.drop size)

/-- The list of slices `l[i:i+size]`. -/
def chunks (size : Nat) (l : List α) : List (List α) := chunksAux l.length size l

/-- One full-size batch attempt with its fallback loop.  State: the
calls issued so far (batch, outcome) and the running imported total. -/
def upsertBatch (ok : List α → Bool) (miniSize : Nat)
    (st : List (List α × Bool) × Nat) (batch : List α) : List (List α × Bool) × Nat :=
  if ok batch then (st.1 ++ [(batch, true)], st.2 + batch.length)
  else
    (chunks miniSize batch).foldl
      (fun s mini =>
        if ok mini then (s.1 ++ [(mini, true)], s.2 + mini.length)
        else (s.1 ++ [(mini, false)], s.2))
      (st.1 ++ [(batch, false)], st.2)

/-- The batching loop: all upsert calls in order with outcomes, and the
final `total_imported`. -/
def runBatches (ok : List α → Bool) (batchSize miniSize : Nat)
    (records : List α) : List (List α × Bool) × Nat :=
  (chunks batchSize records).foldl (upsertBatch ok miniSize) ([], 0)

/-- The configured batch size of the contributions/expenditures scripts. -/
def BATCH_SIZE : Nat := 1000

/-- The fallback mini-batch size of the contributions/expenditures scripts. -/
def MINI_BATCH_SIZE : Nat := 100

/-- Total size of the successful calls in a call trace. -/
def sumOk (calls : List (List α × Bool)) : Nat :=
  (calls.map fun c => if c.2 then c.1.length else 0).sum

/-! ## City-name normalization (`create_texas_geo_lookup.py` lines 24-34)

Each `re.sub` of `normalize_city` is embedded as a function on
character lists; the patterns are anchored, so each rewrites at most
one occurrence. -/

/-- `re.sub(r'\s+', ' ', n)`: collapse each whitespace run to one space. -/
def wsCollapseAux : List Char → Bool → List Char
  | [], _ => []
  | c :: rest, inRun =>
    if pyIsSpace c then
      if inRun then wsCollapseAux rest true
      else ' ' :: wsCollapseAux rest true
    else c :: wsCollapseAux rest false

/-- Whitespace-run collapsing. -/
def wsCollapse (cs : List Char) : List Char := wsCollapseAux cs false

/-- `re.sub(r'^FT\.?\s+', 'FORT ', n)`: a leading `FT` or `FT.` token
followed by whitespace becomes `FORT `. -/
def rewriteFT : List Char → List Char
  | 'F' :: 'T' :: rest =>
    let rest1 := match rest with
      | '.' :: r => r
      | r => r
    match rest1 with
    | c :: r2 =>
      if pyIsSpace c then 'F' :: 'O' :: 'R' :: 'T' :: ' ' :: r2.dropWhile pyIsSpace
      else 'F' :: 'T' :: rest
    | [] => 'F' :: 'T' :: rest
  | cs => cs

/-- `re.sub(r'^ST\.?\s+', 'SAINT ', n)`. -/
def rewriteST : List Char → List Char
  | 'S' :: 'T' :: rest =>
    let rest1 := match rest with
      | '.' :: r => r
      | r => r
    match rest1 with
    | c :: r2 =>
      if pyIsSpace c then 'S' :: 'A' :: 'I' :: 'N' :: 'T' :: ' ' :: r2.dropWhile pyIsSpace
      else 'S' :: 'T' :: rest
    | [] => 'S' :: 'T' :: rest
  | cs => cs

/-- `re.sub(r',?\s*(TX|TEXAS)$', '', n, flags=re.I)` on the uppercased
string: drop a trailing `TX`/`TEXAS`, any whitespace before it, and one
comma before that. -/
def stripStateSuffix (cs : List Char) : List Char :=
  let core : List Char → List Char := fun t =>
    let t1 := dropTrailingWS t
    match t1.reverse with
    | ',' :: r => r.reverse
    | _ => t1
  if ("TEXAS".data).isSuffixOf cs then core (cs.take (cs.length - 5))
  else if ("TX".data).isSuffixOf cs then core (cs.take (cs.length - 2))
  else cs

/-- `re.sub(r'\s+TX\s+USA$', '', n, flags=re.I)` on the uppercased
string: drop a trailing `TX USA` with mandatory whitespace runs. -/
def stripTXUSA (cs : List Char) : List Char :=
  if ("USA".data).isSuffixOf cs then
    let t1 := cs.take (cs.length - 3)
    let t2 := dropTrailingWS t1
    if t2.length < t1.length ∧ ("TX".data).isSuffixOf t2 then
      let t3 := t2.take (t2.length - 2)
      let t4 := dropTrailingWS t3
      if t4.length < t3.length then t4 else cs
    else cs
  else cs

/-- `normalize_city` (`create_texas_geo_lookup.py` lines 24-34). -/
def normalize_city (city_name : String) : String :=
  if city_name = "" then ""
  else
    let n := stripWS (city_name.data.map upperChar)
    let n := wsCollapse n
    let n := rewriteFT n
    let n := rewriteST n
    let n := stripStateSuffix n
    let n := stripTXUSA n
    ⟨stripWS n⟩

/-! ## Spec-side comparison definitions -/

/-- Refinement comparison definition following the claim's wording: the
stripped values of the ten numbered report-type columns, in column
order, with empties removed. -/
def reportTypeVals (row : Row) : List String :=
  ((List.range 10).map fun i => pyStrip (rowGet row ("reportTypeCd" ++ toString (i + 1)))).filter strNonEmpty

/-- Refinement comparison definition following the claim's wording:
join the populated report-type values with `", "`, absent when none. -/
def reportTypeSpec (row : Row) : Option String :=
  if reportTypeVals row = [] then none else some (joinSep ", " (reportTypeVals row))

/-! ## Helper lemmas: strings and the `int()` value bound -/

theorem str_data_append (a b : String) : (a ++ b).data = a.data ++ b.data := rfl

theorem str_length_data (s : String) : s.length = s.data.length := rfl

theorem str_eq_empty_of_data (s : String) (h : s.data = []) : s = "" :=
  String.ext (h.trans rfl)

theorem stripWS_length_le (cs : List Char) : (stripWS cs).length ≤ cs.length := by
  have h1 : (dropLeadingWS cs).length ≤ cs.length :=
    (List.dropWhile_sublist _).length_le
  have h2 : (dropTrailingWS (dropLeadingWS cs)).length ≤ (dropLeadingWS cs).length := by
    unfold dropTrailingWS
    rw [List.length_reverse]
    calc ((dropLeadingWS cs).reverse.dropWhile pyIsSpace).length
        ≤ (dropLeadingWS cs).reverse.length := (List.dropWhile_sublist _).length_le
      _ = (dropLeadingWS cs).length := List.length_reverse _
  exact le_trans h2 h1

theorem digitVal_le_nine (c : Char) (h : isDigitChar c = true) : digitVal c ≤ 9 := by
  unfold isDigitChar at h
  simp only [Bool.and_eq_true, decide_eq_true_eq] at h
  unfold digitVal
  omega

theorem pyDigitsAux_lt : ∀ (cs : List Char) (flag : Bool) (acc n : Nat),
    pyDigitsAux cs flag acc = some n → n < (acc + 1) * 10 ^ cs.length := by
  intro cs
  induction cs with
  | nil =>
    intro flag acc n h
    cases flag with
    | true => simp [pyDigitsAux] at h
    | false =>
      simp [pyDigitsAux] at h
      simp only [List.length_nil, pow_zero, mul_one]
      omega
  | cons c rest ih =>
    intro flag acc n h
    unfold pyDigitsAux at h
    have hlen : (c :: rest).length = rest.length + 1 := rfl
    by_cases hd : isDigitChar c = true
    · rw [if_pos hd] at h
      have hb := ih false (acc * 10 + digitVal c) n h
      have hdv : digitVal c ≤ 9 := digitVal_le_nine c hd
      have h1 : acc * 10 + digitVal c + 1 ≤ (acc + 1) * 10 := by omega
      rw [hlen]
      calc n < (acc * 10 + digitVal c + 1) * 10 ^ rest.length := hb
        _ ≤ ((acc + 1) * 10) * 10 ^ rest.length := Nat.mul_le_mul_right _ h1
        _ = (acc + 1) * 10 ^ (rest.length + 1) := by ring
    · rw [if_neg hd] at h
      by_cases hu : (c == '_') = true
      · rw [if_pos hu] at h
        cases flag with
        | true => simp at h
        | false =>
          simp only [Bool.false_eq_true, if_false] at h
          have hb := ih true acc n h
          rw [hlen]
          calc n < (acc + 1) * 10 ^ rest.length := hb
            _ ≤ (acc + 1) * 10 ^ (rest.length + 1) :=
              Nat.mul_le_mul_left _ (Nat.pow_le_pow_right (by norm_num) (Nat.le_succ _))
      · rw [if_neg hu] at h
        simp at h

theorem pyDigitBody_lt (cs : List Char) (n : Nat) (h : pyDigitBody cs = some n) :
    n < 10 ^ cs.length := by
  cases cs with
  | nil => simp [pyDigitBody] at h
  | cons c rest =>
    simp only [pyDigitBody] at h
    split_ifs at h with hd
    · have hb := pyDigitsAux_lt rest false (digitVal c) n h
      have hdv : digitVal c ≤ 9 := digitVal_le_nine c hd
      calc n < (digitVal c + 1) * 10 ^ rest.length := hb
        _ ≤ 10 * 10 ^ rest.length := Nat.mul_le_mul_right _ (by omega)
        _ = 10 ^ (rest.length + 1) := by ring

theorem pyIntSigned_lt (cs : List Char) (v : Int) (h : pyIntSigned cs = some v)
    (hv : 0 ≤ v) : v < (10 : Int) ^ cs.length := by
  cases cs with
  | nil => simp [pyIntSigned] at h
  | cons c rest =>
    simp only [pyIntSigned] at h
    have hpow : ((10 : Int) : Int) ^ rest.length ≤ (10 : Int) ^ (rest.length + 1) :=
      pow_le_pow_right₀ (by norm_num) (Nat.le_succ _)
    split_ifs at h with hplus hminus
    · rcases Option.map_eq_some'.mp h with ⟨n, hn, rfl⟩
      have hb := pyDigitBody_lt rest n hn
      have hofn : Int.ofNat n = (n : Int) := rfl
      have hcast : (Int.ofNat n) < (10 : Int) ^ rest.length := by
        rw [hofn]
        exact_mod_cast hb
      calc (Int.ofNat n) < (10 : Int) ^ rest.length := hcast
        _ ≤ (10 : Int) ^ (rest.length + 1) := hpow
        _ = (10 : Int) ^ (c :: rest).length := by simp
    · rcases Option.map_eq_some'.mp h with ⟨n, hn, rfl⟩
      have hge : (0 : Int) ≤ (n : Int) := Int.ofNat_nonneg n
      have hn0 : -(n : Int) = 0 := by omega
      rw [hn0]
      positivity
    · rcases Option.map_eq_some'.mp h with ⟨n, hn, rfl⟩
      have hb := pyDigitBody_lt (c :: rest) n hn
      have hofn : Int.ofNat n = (n : Int) := rfl
      rw [hofn]
      exact_mod_cast hb

theorem pyInt_lt (s : String) (v : Int) (h : pyInt? s = some v) (hv : 0 ≤ v) :
    v < (10 : Int) ^ s.length := by
  have hb := pyIntSigned_lt (stripWS s.data) v h hv
  calc v < (10 : Int) ^ (stripWS s.data).length := hb
    _ ≤ (10 : Int) ^ s.data.length :=
      pow_le_pow_right₀ (by norm_num) (stripWS_length_le s.data)
    _ = (10 : Int) ^ s.length := by rw [str_length_data]

/-! ## Helper lemmas: the temporal filter -/

theorem strTake_of_short (n : Nat) (s : String) (h : s.length ≤ n) : strTake n s = s :=
  String.ext (List.take_of_length_le h)

theorem passes_temporal_of_ge (s : String) (m : Int)
    (hm : pyInt? (strTake 8 s) = some m) (hge : MIN_DATE ≤ m) :
    passes_temporal s = true := by
  by_cases hs : s = ""
  · subst hs; rfl
  · unfold passes_temporal
    rw [if_neg hs]
    by_cases hl : 8 ≤ s.length
    · rw [if_pos hl, hm]
      have : ¬ m < MIN_DATE := not_lt.mpr hge
      simp [this]
    · exfalso
      push_neg at hl
      rw [strTake_of_short 8 s (le_of_lt hl)] at hm
      have h0 : (0 : Int) ≤ m := le_trans (by norm_num [MIN_DATE]) hge
      have hb := pyInt_lt s m hm h0
      have hp : (10 : Int) ^ s.length ≤ (10 : Int) ^ 7 :=
        pow_le_pow_right₀ (by norm_num) (by omega)
      have : m < 20200101 := by
        calc m < (10 : Int) ^ s.length := hb
          _ ≤ (10 : Int) ^ 7 := hp
          _ < 20200101 := by norm_num
      simp [MIN_DATE] at hge
      omega

theorem passes_temporal_of_lt (s : String) (m : Int)
    (hm : pyInt? (strTake 8 s) = some m) (hlt : m < MIN_DATE) :
    passes_temporal s = false := by
  have hs : s ≠ "" := by
    intro he
    subst he
    simp [strTake, pyInt?, stripWS, dropLeadingWS, dropTrailingWS, pyIntSigned] at hm
  unfold passes_temporal
  rw [if_neg hs]
  by_cases hl : 8 ≤ s.length
  · rw [if_pos hl, hm]
    simp [hlt]
  · rw [if_neg hl]
    have : (0 : Int) < MIN_DATE := by norm_num [MIN_DATE]
    simp [this]

theorem passes_temporal_of_none (s : String) (h8 : 8 ≤ s.length)
    (hn : pyInt? (strTake 8 s) = none) : passes_temporal s = true := by
  have hs : s ≠ "" := by
    intro he
    subst he
    simp [str_length_data] at h8
  unfold passes_temporal
  rw [if_neg hs, if_pos h8, hn]

theorem passes_temporal_short_false (t : String) (ht : t ≠ "") (hl : t.length < 8) :
    passes_temporal t = false := by
  unfold passes_temporal
  rw [if_neg ht, if_neg (not_le.mpr hl)]
  have : (0 : Int) < MIN_DATE := by norm_num [MIN_DATE]
  simp [this]

/-- C1 (corrected).  Temporal fail-open holds only for received-date
strings of length at least 8 whose first 8 characters fail integer
parsing; a non-empty received-date string shorter than 8 characters is
treated as the value 0 and rejected by the temporal filter. -/
theorem temporal_fail_open_amended (s t : String) (h8 : 8 ≤ s.length)
    (hn : pyInt? (strTake 8 s) = none) (ht : t ≠ "") (hl : t.length < 8) :
    passes_temporal s = true ∧ passes_temporal t = false :=
  ⟨passes_temporal_of_none s h8 hn, passes_temporal_short_false t ht hl⟩

/-- Witness for C1's amended theorem at `"2020-abc"` and `"2023"`. -/
theorem temporal_fail_open_amended_witness :
    (8 ≤ ("2020-abc" : String).length ∧ pyInt? (strTake 8 "2020-abc") = none ∧
      ("2023" : String) ≠ "" ∧ ("2023" : String).length < 8) ∧
    (passes_temporal "2020-abc" = true ∧ passes_temporal "2023" = false) :=
  ⟨⟨by decide, by decide, by decide, by decide⟩,
    temporal_fail_open_amended "2020-abc" "2023" (by decide) (by decide)
      (by decide) (by decide)⟩

/-- C1 counterexample: the claim says a non-empty received-date string
shorter than 8 characters passes the temporal filter; the code rejects
it (`int(raw[:8]) if len(raw) >= 8 else 0` yields 0, below the cutoff). -/
theorem temporal_short_date_rejected_cex :
    passes_temporal "2023" = false ∧
    parse_contribution_row [("receivedDt", "2023"), ("contributionInfoId", "X")] = none :=
  ⟨by decide, by decide⟩

/-- C5 (confirmed).  Cutoff boundary of the temporal filter: a
received-date whose first 8 characters parse to an integer at least
`MIN_DATE` (20200101) passes regardless of trailing content, one whose
first 8 characters parse to an integer strictly below `MIN_DATE` is
rejected, and an empty received-date passes unconditionally. -/
theorem temporal_cutoff_boundary (s t : String) (m n : Int)
    (hm : pyInt? (strTake 8 s) = some m) (hge : MIN_DATE ≤ m)
    (hn : pyInt? (strTake 8 t) = some n) (hlt : n < MIN_DATE) :
    passes_temporal s = true ∧ passes_temporal t = false ∧ passes_temporal "" = true :=
  ⟨passes_temporal_of_ge s m hm hge, passes_temporal_of_lt t n hn hlt, rfl⟩

/-- Witness for C5 at `"20200101xyz"` and `"20191231"`. -/
theorem temporal_cutoff_boundary_witness :
    (pyInt? (strTake 8 "20200101xyz") = some 20200101 ∧ MIN_DATE ≤ (20200101 : Int) ∧
      pyInt? (strTake 8 "20191231") = some 20191231 ∧ (20191231 : Int) < MIN_DATE) ∧
    (passes_temporal "20200101xyz" = true ∧ passes_temporal "20191231" = false ∧
      passes_temporal "" = true) :=
  ⟨⟨by decide, by decide, by decide, by decide⟩,
    temporal_cutoff_boundary "20200101xyz" "20191231" 20200101 20191231
      (by decide) (by decide) (by decide) (by decide)⟩

/-! ## Helper lemmas: date parsing -/

theorem pyCatchAll_ok (e : Except String (Option String)) :
    ∃ o, pyCatchAll e = Except.ok o := by
  cases e with
  | ok r => exact ⟨r, rfl⟩
  | error _ => exact ⟨none, rfl⟩

theorem parse_dateE_ok (u : String) : ∃ o, parse_dateE u = Except.ok o := by
  unfold parse_dateE
  by_cases h1 : u = ""
  · rw [if_pos h1]
    exact ⟨none, rfl⟩
  · rw [if_neg h1]
    by_cases h2 : u.length < 8
    · rw [if_pos h2]
      exact ⟨none, rfl⟩
    · rw [if_neg h2]
      exact pyCatchAll_ok _

/-- C4 (confirmed).  Date parsing contract: an 8-character all-digit
string is regrouped as `YYYY-MM-DD`; any input empty or shorter than 8
characters yields absent; and for every input the function's body
returns normally (`parse_dateE` never propagates an exception). -/
theorem date_parsing_contract (s t : String) (h8 : s.length = 8)
    (hd : s.data.all isDigitChar = true) (ht : t.length < 8) :
    parse_date s = some (strTake 4 s ++ "-" ++ strTake 2 (strDrop 4 s) ++ "-" ++ strTake 2 (strDrop 6 s)) ∧
    parse_date t = none ∧
    ∀ u : String, ∃ o, parse_dateE u = Except.ok o := by
  refine ⟨?_, ?_, parse_dateE_ok⟩
  · have hs : s ≠ "" := by
      intro he
      subst he
      simp [str_length_data] at h8
    have hnl : ¬ s.length < 8 := by omega
    unfold parse_date parse_dateE
    rw [if_neg hs, if_neg hnl, if_pos ⟨h8, hd⟩]
    rfl
  · by_cases htm : t = ""
    · subst htm
      rfl
    · unfold parse_date parse_dateE
      rw [if_neg htm, if_pos ht]

/-- Witness for C4 at `"20230615"` and `"2023"`. -/
theorem date_parsing_contract_witness :
    (("20230615" : String).length = 8 ∧ ("20230615" : String).data.all isDigitChar = true ∧
      ("2023" : String).length < 8) ∧
    (parse_date "20230615" =
        some (strTake 4 "20230615" ++ "-" ++ strTake 2 (strDrop 4 "20230615") ++ "-" ++
          strTake 2 (strDrop 6 "20230615")) ∧
      parse_date "2023" = none) ∧
    parse_date "20230615" = some "2023-06-15" :=
  ⟨⟨by decide, by decide, by decide⟩,
    ⟨(date_parsing_contract "20230615" "2023" (by decide) (by decide) (by decide)).1,
      (date_parsing_contract "20230615" "2023" (by decide) (by decide) (by decide)).2.1⟩,
    by decide⟩

/-! ## Helper lemmas: amount parsing -/

theorem moneyFilter_idem (l : List Char) : moneyFilter (moneyFilter l) = moneyFilter l := by
  unfold moneyFilter
  rw [List.filter_filter]
  simp

theorem cleanAmount_remove (s : String) : cleanAmount (removeMoneyChars s) = cleanAmount s := by
  show stripWS (moneyFilter (moneyFilter s.data)) = stripWS (moneyFilter s.data)
  rw [moneyFilter_idem]

theorem parse_amount_remove (s : String) :
    parse_amount (removeMoneyChars s) = parse_amount s := by
  unfold parse_amount
  rw [cleanAmount_remove]
  by_cases hs : s.data = []
  · have hm : (removeMoneyChars s).data = [] := by
      show moneyFilter s.data = []
      rw [hs]
      rfl
    rw [if_pos hs, if_pos hm]
  · rw [if_neg hs]
    by_cases hm : (removeMoneyChars s).data = []
    · rw [if_pos hm]
      have hca : cleanAmount s = [] := by
        show stripWS (moneyFilter s.data) = []
        have hmf : moneyFilter s.data = [] := hm
        rw [hmf]
        rfl
      rw [hca]
    · rw [if_neg hm]

theorem parse_amount_opt_remove (s : String) :
    parse_amount_opt (removeMoneyChars s) = parse_amount_opt s := by
  unfold parse_amount_opt
  rw [cleanAmount_remove]
  by_cases hs : s.data = []
  · have hm : (removeMoneyChars s).data = [] := by
      show moneyFilter s.data = []
      rw [hs]
      rfl
    rw [if_pos hs, if_pos hm]
  · rw [if_neg hs]
    by_cases hm : (removeMoneyChars s).data = []
    · rw [if_pos hm]
      have hca : cleanAmount s = [] := by
        show stripWS (moneyFilter s.data) = []
        have hmf : moneyFilter s.data = [] := hm
        rw [hmf]
        rfl
      rw [hca]
    · rw [if_neg hm]

theorem parse_amount_dollar_comma : parse_amount "$1,234.50" = (1234.5 : Rat) := by
  have h0 : parse_amount "$1,234.50" =
      (digitsToNat ['1', '2', '3', '4'] : Rat) +
        (digitsToNat ['5', '0'] : Rat) / ((10 : Rat) ^ (['5', '0'] : List Char).length) := rfl
  rw [h0]
  have d1 : digitsToNat ['1', '2', '3', '4'] = 1234 := by decide
  have d2 : digitsToNat ['5', '0'] = 50 := by decide
  have d3 : (['5', '0'] : List Char).length = 2 := rfl
  rw [d1, d2, d3]
  norm_num

theorem parse_amount_plain : parse_amount "1234.50" = (1234.5 : Rat) := by
  have h0 : parse_amount "1234.50" =
      (digitsToNat ['1', '2', '3', '4'] : Rat) +
        (digitsToNat ['5', '0'] : Rat) / ((10 : Rat) ^ (['5', '0'] : List Char).length) := rfl
  rw [h0]
  have d1 : digitsToNat ['1', '2', '3', '4'] = 1234 := by decide
  have d2 : digitsToNat ['5', '0'] = 50 := by decide
  have d3 : (['5', '0'] : List Char).length = 2 := rfl
  rw [d1, d2, d3]
  norm_num

theorem parse_amount_opt_dollar_comma : parse_amount_opt "$1,234.50" = some (1234.5 : Rat) := by
  have h0 : parse_amount_opt "$1,234.50" =
      some ((digitsToNat ['1', '2', '3', '4'] : Rat) +
        (digitsToNat ['5', '0'] : Rat) / ((10 : Rat) ^ (['5', '0'] : List Char).length)) := rfl
  rw [h0]
  have d1 : digitsToNat ['1', '2', '3', '4'] = 1234 := by decide
  have d2 : digitsToNat ['5', '0'] = 50 := by decide
  have d3 : (['5', '0'] : List Char).length = 2 := rfl
  rw [d1, d2, d3]
  norm_num

/-- C6 (confirmed).  Money parsing is invariant under removing all `$`
and `,` characters, in both the zero-default variant
(contributions/expenditures) and the absent-default variant (report
aggregates); `"$1,234.50"` and `"1234.50"` both parse to `1234.50`. -/
theorem money_parsing_strip_invariant (s : String)
    (h : ',' ∈ s.data ∨ '$' ∈ s.data) :
    parse_amount s = parse_amount (removeMoneyChars s) ∧
    parse_amount_opt s = parse_amount_opt (removeMoneyChars s) ∧
    parse_amount "$1,234.50" = (1234.5 : Rat) ∧
    parse_amount "1234.50" = (1234.5 : Rat) ∧
    parse_amount_opt "$1,234.50" = some (1234.5 : Rat) :=
  ⟨(parse_amount_remove s).symm, (parse_amount_opt_remove s).symm,
    parse_amount_dollar_comma, parse_amount_plain, parse_amount_opt_dollar_comma⟩

/-- Witness for C6 at `"$1,234.50"`. -/
theorem money_parsing_strip_invariant_witness :
    (',' ∈ ("$1,234.50" : String).data ∨ '$' ∈ ("$1,234.50" : String).data) ∧
    (parse_amount "$1,234.50" = parse_amount (removeMoneyChars "$1,234.50") ∧
      parse_amount_opt "$1,234.50" = parse_amount_opt (removeMoneyChars "$1,234.50")) :=
  ⟨by decide,
    (money_parsing_strip_invariant "$1,234.50" (by decide)).1,
    (money_parsing_strip_invariant "$1,234.50" (by decide)).2.1⟩

/-! ## Helper lemmas: contribution normalization -/

theorem append_ne_empty_left (a b : String) (ha : a ≠ "") : a ++ b ≠ "" := by
  intro he
  have hd : a.data ++ b.data = [] := congrArg String.data he
  exact ha (str_eq_empty_of_data a (List.append_eq_nil.mp hd).1)

theorem append_ne_empty_right (a b : String) (hb : b ≠ "") : a ++ b ≠ "" := by
  intro he
  have hd : a.data ++ b.data = [] := congrArg String.data he
  exact hb (str_eq_empty_of_data b (List.append_eq_nil.mp hd).2)

theorem build_contributor_name_ne (row : Row) : build_contributor_name row ≠ "" := by
  simp only [build_contributor_name]
  by_cases horg : pyStrip (rowGet row "contributorNameOrganization") ≠ ""
  · rw [if_pos horg]
    exact horg
  · rw [if_neg horg]
    by_cases hlf : pyStrip (rowGet row "contributorNameLast") ≠ "" ∧
        pyStrip (rowGet row "contributorNameFirst") ≠ ""
    · rw [if_pos hlf]
      by_cases hs : pyStrip (rowGet row "contributorNameSuffixCd") ≠ ""
      · rw [if_pos hs]
        apply append_ne_empty_left
        apply append_ne_empty_left
        apply append_ne_empty_left
        exact append_ne_empty_right _ ", " (by decide)
      · rw [if_neg hs]
        apply append_ne_empty_left
        exact append_ne_empty_right _ ", " (by decide)
    · rw [if_neg hlf]
      by_cases hl : pyStrip (rowGet row "contributorNameLast") ≠ ""
      · rw [if_pos hl]
        exact hl
      · rw [if_neg hl]
        by_cases hf : pyStrip (rowGet row "contributorNameFirst") ≠ ""
        · rw [if_pos hf]
          exact hf
        · rw [if_neg hf]
          decide

/-- C3 (corrected).  A contribution row passing the temporal filter is
rejected exactly when its identity column is empty; no rejection occurs
for an absent filer id, amount, or contributor name — those derive to
the empty string, the zero default, and the `"Unknown"` fallback (the
derived contributor name is never empty). -/
theorem contribution_rejection_amended (row : Row)
    (hp : passes_temporal (rowGet row "receivedDt") = true) :
    (parse_contribution_row row = none ↔ rowGet row "contributionInfoId" = "") ∧
    build_contributor_name row ≠ "" ∧
    (rowGet row "contributionInfoId" ≠ "" →
      ∃ c, parse_contribution_row row = some c ∧
        c.id = rowGet row "contributionInfoId" ∧
        c.filer_id = rowGet row "filerIdent" ∧
        c.amount = parse_amount (rowGet row "contributionAmount") ∧
        c.contributor_name = build_contributor_name row) := by
  refine ⟨?_, build_contributor_name_ne row, ?_⟩
  · simp only [parse_contribution_row, hp, if_true]
    by_cases hid : rowGet row "contributionInfoId" = ""
    · rw [if_pos hid]
      simp [hid]
    · rw [if_neg hid]
      simp [hid]
  · intro hid
    simp only [parse_contribution_row, hp, if_true]
    rw [if_neg hid]
    exact ⟨_, rfl, rfl, rfl, rfl, rfl⟩

/-- Witness for C3's amended theorem at a row holding only the identity
column. -/
theorem contribution_rejection_amended_witness :
    passes_temporal (rowGet [("contributionInfoId", "C1")] "receivedDt") = true ∧
    ((parse_contribution_row [("contributionInfoId", "C1")] = none) ↔
      rowGet [("contributionInfoId", "C1")] "contributionInfoId" = "") :=
  ⟨by decide, (contribution_rejection_amended [("contributionInfoId", "C1")] (by decide)).1⟩

/-- C3 counterexample: a contribution row whose filer-id, amount and
contributor-name columns are all absent (so the claim's required fields
are missing) is accepted by the normalizer, not rejected. -/
theorem contribution_required_fields_cex :
    rowGet [("contributionInfoId", "C1")] "filerIdent" = "" ∧
    rowGet [("contributionInfoId", "C1")] "contributionAmount" = "" ∧
    (parse_contribution_row [("contributionInfoId", "C1")]).isSome = true :=
  ⟨by decide, by decide, by decide⟩

/-! ## Helper lemmas: report-type aggregation -/

theorem foldl_collect (f : Nat → String) :
    ∀ (l : List Nat) (acc : List String),
      l.foldl (fun a i => if strNonEmpty (f i) then a ++ [f i] else a) acc
        = acc ++ (l.map f).filter strNonEmpty := by
  intro l
  induction l with
  | nil =>
    intro acc
    simp
  | cons x xs ih =>
    intro acc
    simp only [List.foldl_cons, List.map_cons, List.filter_cons]
    by_cases hx : strNonEmpty (f x) = true
    · simp [hx, ih, List.append_assoc]
    · simp [hx, ih]

theorem reportTypeJoin_eq_spec (row : Row) : reportTypeJoin row = reportTypeSpec row := by
  simp only [reportTypeJoin, reportTypeSpec, reportTypeVals]
  rw [foldl_collect (fun i => pyStrip (rowGet row ("reportTypeCd" ++ toString (i + 1))))
    (List.range 10) []]
  simp

/-- C9 (confirmed).  For a report row passing the temporal filter with
a non-empty report identity, the derived report type equals the
in-order join of the populated (stripped, non-empty) values of columns
`reportTypeCd1` .. `reportTypeCd10` with `", "`, and a row with zero
populated report-type columns yields an absent report type while still
producing a record. -/
theorem report_type_aggregation (row : Row)
    (hp : passes_temporal (rowGet row "receivedDt") = true)
    (hid : rowGet row "reportInfoIdent" ≠ "") :
    ∃ r, parse_report_row row = some r ∧
      r.report_type = reportTypeSpec row ∧
      (reportTypeVals row = [] → r.report_type = none) ∧
      (reportTypeVals row ≠ [] →
        r.report_type = some (joinSep ", " (reportTypeVals row))) := by
  simp only [parse_report_row, hp, if_true]
  rw [if_neg hid]
  refine ⟨_, rfl, ?_, ?_, ?_⟩
  · exact reportTypeJoin_eq_spec row
  · intro hv
    show reportTypeJoin row = none
    rw [reportTypeJoin_eq_spec row]
    unfold reportTypeSpec
    rw [if_pos hv]
  · intro hv
    show reportTypeJoin row = some (joinSep ", " (reportTypeVals row))
    rw [reportTypeJoin_eq_spec row]
    unfold reportTypeSpec
    rw [if_neg hv]

/-- Witness for C9 at a report row with two populated report-type
columns and one with none. -/
theorem report_type_aggregation_witness :
    (passes_temporal (rowGet [("reportInfoIdent", "R1"), ("reportTypeCd2", " A "),
        ("reportTypeCd5", "B")] "receivedDt") = true ∧
      rowGet [("reportInfoIdent", "R1"), ("reportTypeCd2", " A "),
        ("reportTypeCd5", "B")] "reportInfoIdent" ≠ "") ∧
    (∃ r, parse_report_row [("reportInfoIdent", "R1"), ("reportTypeCd2", " A "),
        ("reportTypeCd5", "B")] = some r ∧
      r.report_type = reportTypeSpec [("reportInfoIdent", "R1"), ("reportTypeCd2", " A "),
        ("reportTypeCd5", "B")] ∧
      (reportTypeVals [("reportInfoIdent", "R1"), ("reportTypeCd2", " A "),
          ("reportTypeCd5", "B")] = [] → r.report_type = none) ∧
      (reportTypeVals [("reportInfoIdent", "R1"), ("reportTypeCd2", " A "),
          ("reportTypeCd5", "B")] ≠ [] →
        r.report_type = some (joinSep ", " (reportTypeVals [("reportInfoIdent", "R1"),
          ("reportTypeCd2", " A "), ("reportTypeCd5", "B")])))) :=
  ⟨⟨by decide, by decide⟩,
    report_type_aggregation [("reportInfoIdent", "R1"), ("reportTypeCd2", " A "),
      ("reportTypeCd5", "B")] (by decide) (by decide)⟩

/-! ## Helper lemmas: import loops and deduplication -/

theorem parse_filer_row_id (row : Row) :
    (parse_filer_row row).id = rowGet row "filerIdent" := rfl

theorem collectRows_fst (p : Row → Option ρ) :
    ∀ rows : List Row, (collectRows p rows).1 = rows.filterMap p := by
  intro rows
  induction rows with
  | nil => rfl
  | cons row rest ih =>
    simp only [collectRows]
    cases hp : p row with
    | some r => simp [hp, ih, List.filterMap_cons]
    | none => simp [hp, ih, List.filterMap_cons]

theorem filersLoop_eq : ∀ (rows : List Row) (seen : List String),
    filersLoop rows seen = (dedupFirstAux rows seen).filterMap keep_named_filer := by
  intro rows
  induction rows with
  | nil => intro seen; rfl
  | cons row rest ih =>
    intro seen
    simp only [filersLoop, dedupFirstAux]
    by_cases h1 : rowGet row "filerIdent" = ""
    · rw [if_pos h1, if_pos h1]
      exact ih seen
    · rw [if_neg h1, if_neg h1]
      by_cases h2 : seen.contains (rowGet row "filerIdent") = true
      · rw [if_pos h2, if_pos h2]
        exact ih seen
      · rw [if_neg h2, if_neg h2]
        by_cases hname : (parse_filer_row row).name = ""
        · rw [if_pos hname]
          simp [List.filterMap_cons, keep_named_filer, hname,
            ih (rowGet row "filerIdent" :: seen)]
        · rw [if_neg hname]
          simp [List.filterMap_cons, keep_named_filer, hname,
            ih (rowGet row "filerIdent" :: seen)]

theorem filersLoop_not_seen : ∀ (rows : List Row) (seen : List String),
    ∀ f ∈ filersLoop rows seen, seen.contains f.id = false := by
  intro rows
  induction rows with
  | nil =>
    intro seen f hf
    simp [filersLoop] at hf
  | cons row rest ih =>
    intro seen f hf
    simp only [filersLoop] at hf
    by_cases h1 : rowGet row "filerIdent" = ""
    · rw [if_pos h1] at hf
      exact ih seen f hf
    · rw [if_neg h1] at hf
      by_cases h2 : seen.contains (rowGet row "filerIdent") = true
      · rw [if_pos h2] at hf
        exact ih seen f hf
      · rw [if_neg h2] at hf
        by_cases hname : (parse_filer_row row).name = ""
        · rw [if_pos hname] at hf
          have := ih (rowGet row "filerIdent" :: seen) f hf
          simp only [List.contains_cons, Bool.or_eq_false_iff] at this
          exact this.2
        · rw [if_neg hname] at hf
          cases hf with
          | head =>
            rw [parse_filer_row_id]
            exact Bool.not_eq_true _ ▸ (Bool.eq_false_iff.mpr h2)
          | tail _ hmem =>
            have := ih (rowGet row "filerIdent" :: seen) f hmem
            simp only [List.contains_cons, Bool.or_eq_false_iff] at this
            exact this.2

theorem filersLoop_ids_nodup : ∀ (rows : List Row) (seen : List String),
    ((filersLoop rows seen).map Filer.id).Nodup := by
  intro rows
  induction rows with
  | nil =>
    intro seen
    simp [filersLoop]
  | cons row rest ih =>
    intro seen
    simp only [filersLoop]
    by_cases h1 : rowGet row "filerIdent" = ""
    · rw [if_pos h1]
      exact ih seen
    · rw [if_neg h1]
      by_cases h2 : seen.contains (rowGet row "filerIdent") = true
      · rw [if_pos h2]
        exact ih seen
      · rw [if_neg h2]
        by_cases hname : (parse_filer_row row).name = ""
        · rw [if_pos hname]
          exact ih _
        · rw [if_neg hname]
          rw [List.map_cons, List.nodup_cons]
          refine ⟨?_, ih _⟩
          intro hmem
          rcases List.mem_map.mp hmem with ⟨f, hf, hfid⟩
          have hns := filersLoop_not_seen rest (rowGet row "filerIdent" :: seen) f hf
          rw [hfid, parse_filer_row_id] at hns
          simp [List.contains_cons] at hns

theorem filersLoop_avoid : ∀ (pre : List Row) (row : Row) (post : List Row) (seen : List String),
    (∀ r ∈ pre, rowGet r "filerIdent" ≠ rowGet row "filerIdent") →
    seen.contains (rowGet row "filerIdent") = false →
    rowGet row "filerIdent" ≠ "" →
    (parse_filer_row row).name = "" →
    ∀ f ∈ filersLoop (pre ++ row :: post) seen, f.id ≠ rowGet row "filerIdent" := by
  intro pre
  induction pre with
  | nil =>
    intro row post seen _ hseen hid hname f hf
    simp only [List.nil_append, filersLoop] at hf
    rw [if_neg hid, if_neg (by rw [hseen]; exact Bool.false_ne_true), if_pos hname] at hf
    have hns := filersLoop_not_seen post (rowGet row "filerIdent" :: seen) f hf
    simp only [List.contains_cons, Bool.or_eq_false_iff] at hns
    intro he
    rw [he] at hns
    simp at hns
  | cons r pre' ih =>
    intro row post seen hfirst hseen hid hname f hf
    simp only [List.cons_append, filersLoop] at hf
    have hr : rowGet r "filerIdent" ≠ rowGet row "filerIdent" :=
      hfirst r (List.mem_cons_self r pre')
    have hfirst' : ∀ r' ∈ pre', rowGet r' "filerIdent" ≠ rowGet row "filerIdent" :=
      fun r' hr' => hfirst r' (List.mem_cons_of_mem r hr')
    by_cases h1 : rowGet r "filerIdent" = ""
    · rw [if_pos h1] at hf
      exact ih row post seen hfirst' hseen hid hname f hf
    · rw [if_neg h1] at hf
      by_cases h2 : seen.contains (rowGet r "filerIdent") = true
      · rw [if_pos h2] at hf
        exact ih row post seen hfirst' hseen hid hname f hf
      · rw [if_neg h2] at hf
        have hseen' : (rowGet r "filerIdent" :: seen).contains (rowGet row "filerIdent") = false := by
          simp only [List.contains_cons, Bool.or_eq_false_iff]
          constructor
          · exact beq_eq_false_iff_ne.mpr fun he => hr he.symm
          · exact hseen
        by_cases hn : (parse_filer_row r).name = ""
        · rw [if_pos hn] at hf
          exact ih row post _ hfirst' hseen' hid hname f hf
        · rw [if_neg hn] at hf
          cases hf with
          | head =>
            rw [parse_filer_row_id]
            exact hr
          | tail _ hmem =>
            exact ih row post _ hfirst' hseen' hid hname f hmem

/-- C7 (confirmed).  Within one run the filer importer keeps, for each
non-empty identity, exactly the first-encountered row (its derived
record, dropped when the derived name is empty), so emitted filer
identities are never duplicated; the report, contribution and
expenditure importers perform no deduplication: their outputs are
exactly the per-row normalizations in order, duplicates included. -/
theorem dedup_first_wins_filer_only :
    (∀ rows : List Row,
      import_filers_records rows = (dedupFirst rows).filterMap keep_named_filer) ∧
    (∀ rows : List Row, ((import_filers_records rows).map Filer.id).Nodup) ∧
    (∀ rows : List Row,
      (collectRows parse_contribution_row rows).1 = rows.filterMap parse_contribution_row) ∧
    (∀ rows : List Row,
      (collectRows parse_expenditure_row rows).1 = rows.filterMap parse_expenditure_row) ∧
    (∀ rows : List Row,
      (collectRows parse_report_row rows).1 = rows.filterMap parse_report_row) :=
  ⟨fun rows => filersLoop_eq rows [],
    fun rows => filersLoop_ids_nodup rows [],
    collectRows_fst parse_contribution_row,
    collectRows_fst parse_expenditure_row,
    collectRows_fst parse_report_row⟩

/-- C10 (confirmed).  The filer importer records an identity as seen
before the empty-name rejection check, so when the first row bearing an
identity derives an empty name, no filer record with that identity is
ever emitted in that run, even if a later row with the same identity
would have derived a non-empty name. -/
theorem filer_seen_before_name_check (pre : List Row) (row : Row) (post : List Row)
    (hfirst : ∀ r ∈ pre, rowGet r "filerIdent" ≠ rowGet row "filerIdent")
    (hid : rowGet row "filerIdent" ≠ "")
    (hname : (parse_filer_row row).name = "") :
    ∀ f ∈ import_filers_records (pre ++ row :: post), f.id ≠ rowGet row "filerIdent" :=
  filersLoop_avoid pre row post [] hfirst rfl hid hname

/-- Witness for C10: the first `F1` row derives an empty name, so the
later `F1` row with a usable name is also dropped. -/
theorem filer_seen_before_name_check_witness :
    ((∀ r ∈ ([] : List Row), rowGet r "filerIdent" ≠ rowGet [("filerIdent", "F1")] "filerIdent") ∧
      rowGet [("filerIdent", "F1")] "filerIdent" ≠ "" ∧
      (parse_filer_row [("filerIdent", "F1")]).name = "") ∧
    (∀ f ∈ import_filers_records
        ([] ++ [("filerIdent", "F1")] :: [[("filerIdent", "F1"), ("filerName", "Alice")]]),
      f.id ≠ rowGet [("filerIdent", "F1")] "filerIdent") :=
  ⟨⟨fun r hr => absurd hr (List.not_mem_nil r), by decide, by decide⟩,
    filer_seen_before_name_check [] [("filerIdent", "F1")]
      [[("filerIdent", "F1"), ("filerName", "Alice")]]
      (fun r hr => absurd hr (List.not_mem_nil r)) (by decide) (by decide)⟩

/-! ## Helper lemmas: batch loader accounting -/

theorem sumOk_append (a b : List (List α × Bool)) :
    sumOk (a ++ b) = sumOk a + sumOk b := by
  unfold sumOk
  rw [List.map_append, List.sum_append]

theorem innerFold_invariant (ok : List α → Bool) :
    ∀ (minis : List (List α)) (st : List (List α × Bool) × Nat),
      st.2 = sumOk st.1 →
      (minis.foldl (fun s mini =>
          if ok mini then (s.1 ++ [(mini, true)], s.2 + mini.length)
          else (s.1 ++ [(mini, false)], s.2)) st).2
        = sumOk (minis.foldl (fun s mini =>
            if ok mini then (s.1 ++ [(mini, true)], s.2 + mini.length)
            else (s.1 ++ [(mini, false)], s.2)) st).1 := by
  intro minis
  induction minis with
  | nil =>
    intro st h
    exact h
  | cons m ms ih =>
    intro st h
    simp only [List.foldl_cons]
    by_cases hm : ok m = true
    · rw [if_pos hm]
      apply ih
      rw [sumOk_append, h]
      simp [sumOk]
    · rw [if_neg hm]
      apply ih
      rw [sumOk_append, h]
      simp [sumOk]

theorem upsertBatch_invariant (ok : List α → Bool) (ms : Nat)
    (st : List (List α × Bool) × Nat) (batch : List α) (h : st.2 = sumOk st.1) :
    (upsertBatch ok ms st batch).2 = sumOk (upsertBatch ok ms st batch).1 := by
  unfold upsertBatch
  by_cases hb : ok batch = true
  · rw [if_pos hb]
    rw [sumOk_append, h]
    simp [sumOk]
  · rw [if_neg hb]
    apply innerFold_invariant
    rw [sumOk_append, h]
    simp [sumOk]

theorem foldl_upsert_invariant (ok : List α → Bool) (ms : Nat) :
    ∀ (cl : List (List α)) (st : List (List α × Bool) × Nat),
      st.2 = sumOk st.1 →
      (cl.foldl (upsertBatch ok ms) st).2 = sumOk (cl.foldl (upsertBatch ok ms) st).1 := by
  intro cl
  induction cl with
  | nil =>
    intro st h
    exact h
  | cons b bs ih =>
    intro st h
    simp only [List.foldl_cons]
    exact ih _ (upsertBatch_invariant ok ms st b h)

theorem runBatches_imported (ok : List α → Bool) (bs ms : Nat) (l : List α) :
    (runBatches ok bs ms l).2 = sumOk (runBatches ok bs ms l).1 := by
  unfold runBatches
  exact foldl_upsert_invariant ok ms (chunks bs l) ([], 0) rfl

/-- C2 (corrected).  Against a store failing every batch of size above
2, loading 5 records with batch size 5 and fallback size 2 produces 4
upsert calls — the failing full batch of 5, then fallback sub-batches
of sizes 2, 2 and 1 (the remainder forms a final shorter sub-batch;
nothing is dropped) — with all 5 records imported; and in general the
reported success count equals the total size of the successful calls. -/
theorem batch_degradation_amended :
    (runBatches (fun b => decide (b.length ≤ 2)) 5 2 [0, 1, 2, 3, 4] =
      ([([0, 1, 2, 3, 4], false), ([0, 1], true), ([2, 3], true), ([4], true)], 5)) ∧
    (∀ (α : Type) (ok : List α → Bool) (bs ms : Nat) (l : List α),
      (runBatches ok bs ms l).2 = sumOk (runBatches ok bs ms l).1) :=
  ⟨by decide, fun _ ok bs ms l => runBatches_imported ok bs ms l⟩

/-- C2 counterexample: the scenario of the claim issues 4 upsert calls
and imports all 5 records, not exactly 3 calls with a record dropped. -/
theorem batch_degradation_call_count_cex :
    (runBatches (fun b => decide (b.length ≤ 2)) 5 2 [0, 1, 2, 3, 4]).1.length = 4 ∧
    (runBatches (fun b => decide (b.length ≤ 2)) 5 2 [0, 1, 2, 3, 4]).2 = 5 ∧
    ¬ (runBatches (fun b => decide (b.length ≤ 2)) 5 2 [0, 1, 2, 3, 4]).1.length = 3 :=
  ⟨by decide, by decide, by decide⟩

/-- C8 (confirmed).  City-name normalization on the three contract
examples, and the empty string maps to the empty string. -/
theorem city_normalization_examples :
    normalize_city "Ft. Worth, TX" = "FORT WORTH" ∧
    normalize_city "ST HEDWIG TEXAS" = "SAINT HEDWIG" ∧
    normalize_city "Dallas TX USA" = "DALLAS" ∧
    normalize_city "" = "" :=
  ⟨by decide, by decide, by decide, by decide⟩
